import Mathlib

/-!
Verification development for the bybitoption repository.

The definitions below are a shallow embedding of the core of the
repository:

* `src/price_monitor/` — the price monitor service (`monitor_service.py`,
  `storage.py`, `api.py`, `models.py`): monitor tasks, cross detection,
  trigger/webhook dispatch, and the HTTP create/delete endpoints.
* `src/strategy_manager/` — the strategy engine (`service.py`,
  `executor.py`, `models.py`, `monitor_client.py`): strategy/level state,
  webhook ingestion, the serialized level executor and linked-level
  triggering.

Prices are modelled as rationals (the Python code uses floats, but every
comparison in the claims is on exact decimal values).  Wall-clock fields
(`created_at`, `expires_at`, `triggered_at`) are omitted: expiry is
modelled as an explicit state operation, never as a clock read.
-/

namespace Bybitoption

/-! ## Price monitor: data model (src/price_monitor/models.py) -/

/-- Embeds `MonitorTask` (models.py).  `MemoryStorage.tasks` and
`PriceMonitorService.active_tasks` hold the *same* Python object, so the
`status` field written through `storage.update_task_status` is the one
observed by later price updates; the embedding therefore keeps a single
`status` field per task. -/
structure MonitorTask where
  task_id : String
  monitor_symbol : String
  monitor_instrument : String := "option"
  target_price : ℚ
  webhook_url : String
  current_price : Option ℚ := none
  previous_price : Option ℚ := none
  status : String := "active"
  strategy_id : Option String := none
  level_id : Option String := none
  monitor_type : Option String := none
  deriving Repr, DecidableEq

/-- Embeds `WebhookData` (models.py), restricted to the fields the claims
talk about. -/
structure WebhookData where
  task_id : String
  monitor_symbol : String
  target_price : ℚ
  triggered_price : ℚ
  previous_price : ℚ
  trigger_direction : String
  deriving Repr, DecidableEq

/-! ## Price monitor: per-task run state (src/price_monitor/monitor_service.py)

`_on_price_update` iterates over the tasks of `active_tasks` matching the
updated symbol; each loop iteration reads and writes only that one task's
fields and its own entry of the active map, so the behaviour of a single
task under a price sequence is the per-task projection of the service.
`TaskRun` is that projection: the task object, its membership in
`active_tasks`, and the webhooks sent for it. -/

structure TaskRun where
  task : MonitorTask
  inActive : Bool
  webhooks : List WebhookData
  deriving Repr, DecidableEq

/-- Embeds `PriceMonitorService._check_price_target` (monitor_service.py
lines 298-325).  Note the source reads `task.previous_price`, not
`task.current_price`, and compares it with the incoming price. -/
def check_price_target (task : MonitorTask) (current_price : ℚ) : String :=
  match task.previous_price with
  | none => ""
  | some previous_price =>
    if previous_price < task.target_price ∧ task.target_price ≤ current_price then
      "up_cross"
    else if previous_price > task.target_price ∧ task.target_price ≥ current_price then
      "down_cross"
    else
      ""

/-- Embeds `PriceMonitorService._trigger_task` (monitor_service.py lines
327-362): guard on `status != "active"`, set status to `triggered`
(which, via `storage.update_task_status`, is also the stored status),
remove the task from the active map, then send the webhook.  The webhook
body is built by `_send_webhook` (lines 364-399); its `previous_price`
field is `task.previous_price or 0.0`. -/
def trigger_task (s : TaskRun) (triggered_price : ℚ) (trigger_direction : String) :
    TaskRun :=
  if s.task.status ≠ "active" then s
  else
    let task := { s.task with status := "triggered" }
    { task := task
      inActive := false
      webhooks := s.webhooks ++ [{
        task_id := task.task_id
        monitor_symbol := task.monitor_symbol
        target_price := task.target_price
        triggered_price := triggered_price
        previous_price := task.previous_price.getD 0
        trigger_direction := trigger_direction }] }

/-- Embeds one loop iteration of `PriceMonitorService._on_price_update`
(monitor_service.py lines 277-296) for this task: the task is checked
only when it is in `active_tasks`, monitors the option instrument for the
updated symbol, and has status `active`; on a non-empty trigger direction
the task is triggered, otherwise the price history shifts
(`previous_price ← current_price`, `current_price ← p`). -/
def on_price_update (s : TaskRun) (symbol : String) (p : ℚ) : TaskRun :=
  if s.inActive = true ∧ s.task.monitor_instrument = "option" ∧
      s.task.monitor_symbol = symbol ∧ s.task.status = "active" then
    if check_price_target s.task p ≠ "" then
      trigger_task s p (check_price_target s.task p)
    else { s with task := { s.task with
                              previous_price := s.task.current_price
                              current_price := some p } }
  else s

/-- Deliver a sequence of prices for `symbol` in order. -/
def processPrices (s : TaskRun) (symbol : String) (ps : List ℚ) : TaskRun :=
  ps.foldl (fun acc p => on_price_update acc symbol p) s

/-- A freshly created monitor task, as built by `create_monitor_task`
(api.py lines 256-273): no price history, status `active`. -/
def mkTask (id symbol : String) (target : ℚ) : MonitorTask :=
  { task_id := id
    monitor_symbol := symbol
    monitor_instrument := "option"
    target_price := target
    webhook_url := "http://localhost:8080/api/strategies/webhook" }

/-- State right after `add_monitor_task` succeeded: the task is persisted
and in the active map, no webhook sent yet. -/
def startRun (task : MonitorTask) : TaskRun :=
  { task := task, inActive := true, webhooks := [] }

/-- Directional crossing of `target` between a pair of observed prices,
as in the spec: `prev < target ≤ cur` (up cross) or `prev > target ≥ cur`
(down cross). -/
def crossPred (prev target cur : ℚ) : Prop :=
  (prev < target ∧ target ≤ cur) ∨ (prev > target ∧ target ≥ cur)

instance (prev target cur : ℚ) : Decidable (crossPred prev target cur) := by
  unfold crossPred
  infer_instance

/-- The spec's claimed trigger condition for a price sequence: some
adjacent pair of observations crosses the target. -/
def specAdjacentCross (target : ℚ) (ps : List ℚ) : Prop :=
  ∃ j, j + 1 < ps.length ∧ crossPred (ps.getD j 0) target (ps.getD (j + 1) 0)

/-! ## Price monitor: storage and HTTP endpoints
(src/price_monitor/storage.py, api.py)

`ServiceState` is the storage-level view of the monitor service used by
the HTTP endpoints: `MemoryStorage.tasks` and the ids of
`active_tasks`. -/

structure ServiceState where
  tasks : List MonitorTask
  activeIds : List String
  deriving Repr, DecidableEq

/-- Embeds `MemoryStorage.get_task` (storage.py lines 65-67). -/
def get_task (st : ServiceState) (task_id : String) : Option MonitorTask :=
  st.tasks.find? (fun t => t.task_id == task_id)

/-- Embeds `MemoryStorage.save_task` (storage.py lines 55-63): dict
assignment, i.e. replace an existing entry or append a new one. -/
def save_task (tasks : List MonitorTask) (task : MonitorTask) : List MonitorTask :=
  if tasks.any (fun t => t.task_id == task.task_id) then
    tasks.map (fun t => if t.task_id == task.task_id then task else t)
  else
    tasks ++ [task]

/-- Embeds `PriceMonitorService.remove_monitor_task` (monitor_service.py
lines 105-126): delete from the active map if present, delete from
storage (`MemoryStorage.delete_task`, storage.py lines 87-97), return
True. -/
def remove_monitor_task (st : ServiceState) (task_id : String) :
    ServiceState × Bool :=
  ({ tasks := st.tasks.filter (fun t => t.task_id ≠ task_id)
     activeIds := st.activeIds.filter (fun id => id ≠ task_id) }, true)

/-- Embeds `PriceMonitorService.add_monitor_task` (monitor_service.py
lines 72-103): save to storage, insert into the active map. -/
def add_monitor_task (st : ServiceState) (task : MonitorTask) : ServiceState :=
  { tasks := save_task st.tasks task
    activeIds :=
      if st.activeIds.any (fun id => id == task.task_id) then st.activeIds
      else st.activeIds ++ [task.task_id] }

/-- The storage/active-map effect of `PriceMonitorService._trigger_task`
(monitor_service.py lines 341-350): `storage.update_task_status(task_id,
"triggered")` (which updates the entry in place and never deletes it)
followed by deletion from the active map. -/
def trigger_storage_effect (st : ServiceState) (task_id : String) : ServiceState :=
  { tasks := st.tasks.map (fun t =>
      if t.task_id == task_id then { t with status := "triggered" } else t)
    activeIds := st.activeIds.filter (fun id => id ≠ task_id) }

/-- The storage/active-map effect of `PriceMonitorService._expire_task`
(monitor_service.py lines 401-414): `storage.update_task_status(task_id,
"expired")` followed by deletion from the active map. -/
def expire_storage_effect (st : ServiceState) (task_id : String) : ServiceState :=
  { tasks := st.tasks.map (fun t =>
      if t.task_id == task_id then { t with status := "expired" } else t)
    activeIds := st.activeIds.filter (fun id => id ≠ task_id) }

/-- Result of a monitor HTTP endpoint: success envelope or an
`HTTPException` status code. -/
inductive ApiResult where
  | ok : ApiResult
  | err (code : ℕ) : ApiResult
  deriving Repr, DecidableEq

/-- Maximum active task count, `MonitorConfig.MAX_TASKS` (config.py line
27, default 100). -/
def MAX_TASKS : ℕ := 100

/-- Embeds `create_monitor_task` (api.py lines 225-303) after request
validation: reject with 400 when `storage.get_task` already knows the
task id, with 429 at capacity; otherwise add the task. -/
def create_monitor_task (st : ServiceState) (task : MonitorTask) :
    ServiceState × ApiResult :=
  match get_task st task.task_id with
  | some _ => (st, .err 400)
  | none =>
    if MAX_TASKS ≤ st.activeIds.length then (st, .err 429)
    else (add_monitor_task st task, .ok)

/-- Embeds `delete_monitor_task` (api.py lines 354-389): 404 when
`storage.get_task` finds nothing, otherwise `remove_monitor_task` (which
always returns True) and a success envelope. -/
def delete_monitor_task (st : ServiceState) (task_id : String) :
    ServiceState × ApiResult :=
  match get_task st task_id with
  | none => (st, .err 404)
  | some _ =>
    let (st1, success) := remove_monitor_task st task_id
    if success then (st1, .ok) else (st1, .err 500)

/-! ## Strategy engine: data model (src/strategy_manager/models.py) -/

/-- Embeds `LevelStatus` (models.py lines 19-28). -/
inductive LevelStatus where
  | pending | waiting | monitoring | executing | completed | failed | cancelled
  deriving Repr, DecidableEq

/-- Embeds `MonitorType` (models.py lines 31-36). -/
inductive MonitorType where
  | ENTRY | TAKE_PROFIT | STOP_LOSS
  deriving Repr, DecidableEq

/-- The `.value` string of a `MonitorType`. -/
def MonitorType.value : MonitorType → String
  | .ENTRY => "ENTRY"
  | .TAKE_PROFIT => "TAKE_PROFIT"
  | .STOP_LOSS => "STOP_LOSS"

/-- Embeds `StrategyStatus` (models.py lines 11-16). -/
inductive StrategyStatus where
  | running | paused | stopped
  deriving Repr, DecidableEq

/-- Embeds `StrategyLevel` (models.py lines 64-83), restricted to the
fields the claims use (`monitor_task_ids` and `executions` are not
modelled; the claims below do not mention them). -/
structure StrategyLevel where
  level_id : String
  option_symbol : String
  side : String
  quantity : String
  trigger_type : String
  trigger_price : Option ℚ := none
  take_profit : Option ℚ := none
  stop_loss : Option ℚ := none
  order_type : String := "Market"
  limit_price : Option ℚ := none
  status : LevelStatus := .pending
  trigger_level_id : Option String := none
  trigger_level_event : Option String := none
  deriving Repr, DecidableEq

/-- Embeds `TradingStrategy` (models.py lines 147-157). -/
structure TradingStrategy where
  strategy_id : String
  name : String := ""
  status : StrategyStatus := .running
  levels : List StrategyLevel
  deriving Repr, DecidableEq

/-- Embeds `ExecutionTask` (executor.py lines 23-28): the enqueued task
carries the level object as it was at enqueue time (service methods
reload strategies from storage, so the executor's reference behaves as a
snapshot with respect to later stored updates). -/
structure ExecutionTask where
  strategy_id : String
  level : StrategyLevel
  monitor_type : MonitorType
  deriving Repr, DecidableEq

/-- The engine state: the stored strategy (the claims concern a single
strategy), the executor FIFO queue, the trade log
(`storage.append_trade`: level id, monitor type, success) and the venue
orders placed (symbol, side). -/
structure EngineState where
  strategy : TradingStrategy
  queue : List ExecutionTask
  trades : List (String × MonitorType × Bool)
  orders : List (String × String)
  deriving Repr, DecidableEq

/-! ## Strategy engine: operations (src/strategy_manager/service.py,
executor.py, storage.py) -/

/-- Lookup of a level by id, as in `handle_webhook`'s
`next((lvl for lvl in strategy.levels if lvl.level_id == level_id), None)`. -/
def findLevel (st : TradingStrategy) (level_id : String) : Option StrategyLevel :=
  st.levels.find? (fun l => l.level_id == level_id)

/-- Embeds `JSONStorage.update_level` (storage.py lines 63-72): replace
the stored level with the same id wholesale (dict assignment), or append
it when the id is new. -/
def update_level (st : TradingStrategy) (lvl : StrategyLevel) : TradingStrategy :=
  if st.levels.any (fun l => l.level_id == lvl.level_id) then
    { st with levels := st.levels.map (fun l =>
        if l.level_id == lvl.level_id then lvl else l) }
  else
    { st with levels := st.levels ++ [lvl] }

/-- `JSONStorage.update_level` looks the strategy up by id first and is a
no-op when the id is unknown. -/
def storage_update_level (st : TradingStrategy) (strategy_id : String)
    (lvl : StrategyLevel) : TradingStrategy :=
  if strategy_id == st.strategy_id then update_level st lvl else st

/-- Status of a level of the stored strategy. -/
def levelStatus (e : EngineState) (level_id : String) : Option LevelStatus :=
  (findLevel e.strategy level_id).map (fun l => l.status)

/-- Embeds `StrategyService.handle_webhook` (service.py lines 147-175):
locate the strategy and level; ignore the webhook when the strategy is
not running or the level is already completed/failed/cancelled; otherwise
enqueue an execution task carrying the level. -/
def handle_webhook (e : EngineState) (strategy_id level_id : String)
    (monitor_type : MonitorType) : EngineState :=
  if strategy_id ≠ e.strategy.strategy_id then e
  else
    match findLevel e.strategy level_id with
    | none => e
    | some level =>
      if e.strategy.status ≠ .running then e
      else if level.status = .completed ∨ level.status = .failed ∨
          level.status = .cancelled then e
      else { e with queue := e.queue ++ [⟨strategy_id, level, monitor_type⟩] }

/-- Embeds `StrategyService.pause_strategy` (service.py lines 106-119):
set the strategy paused, cancel monitor tasks (not modelled) and reset
`monitoring` levels to `pending`. -/
def pause_strategy (e : EngineState) : EngineState :=
  { e with strategy := { e.strategy with
      status := .paused
      levels := e.strategy.levels.map (fun l =>
        if l.status = .monitoring then { l with status := .pending } else l) } }

/-- Embeds `StrategyService.stop_strategy` (service.py lines 132-144):
set the strategy stopped and move every level that is not completed or
failed to `cancelled`. -/
def stop_strategy (e : EngineState) : EngineState :=
  { e with strategy := { e.strategy with
      status := .stopped
      levels := e.strategy.levels.map (fun l =>
        if l.status ≠ .completed ∧ l.status ≠ .failed then
          { l with status := .cancelled }
        else l) } }

/-- Eligibility test of `StrategyService._trigger_linked_levels`
(service.py lines 203-211): `trigger_type == "level_close"`, the linked
id matches the completed level, the linked event is unset or matches the
fired monitor type, and the status is none of completed, failed,
cancelled, executing, monitoring. -/
def linkedEligible (l : StrategyLevel) (completed_level_id : String)
    (monitor : MonitorType) : Prop :=
  l.trigger_type = "level_close" ∧
  l.trigger_level_id = some completed_level_id ∧
  (l.trigger_level_event = none ∨ l.trigger_level_event = some monitor.value) ∧
  ¬(l.status = .completed ∨ l.status = .failed ∨ l.status = .cancelled ∨
      l.status = .executing ∨ l.status = .monitoring)

instance (l : StrategyLevel) (cid : String) (m : MonitorType) :
    Decidable (linkedEligible l cid m) := by
  unfold linkedEligible
  infer_instance

/-- Embeds `StrategyService._trigger_linked_levels` (service.py lines
198-222): every eligible level is set to `monitoring` and an ENTRY
execution task carrying the updated level is enqueued; the updated
strategy is persisted. -/
def trigger_linked_levels (st : TradingStrategy) (completed_level_id : String)
    (monitor : MonitorType) : TradingStrategy × List ExecutionTask :=
  ({ st with levels := st.levels.map (fun l =>
       if linkedEligible l completed_level_id monitor then
         { l with status := .monitoring }
       else l) },
   st.levels.filterMap (fun l =>
     if linkedEligible l completed_level_id monitor then
       some ⟨st.strategy_id, { l with status := .monitoring }, .ENTRY⟩
     else none))

/-- Python `str.lower()` for the ASCII strings used here. -/
def lowerStr (s : String) : String := String.mk (s.data.map Char.toLower)

/-- Python `str.upper()` for the ASCII strings used here. -/
def upperStr (s : String) : String := String.mk (s.data.map Char.toUpper)

/-- Python `str.endswith`. -/
def endsWithStr (s suffix1 : String) : Bool := suffix1.data.isSuffixOf s.data

/-- Embeds `StrategyService._normalize_symbol` (service.py lines
258-265): uppercase and append `-USDT` unless a settlement suffix is
already present. -/
def normalize_symbol (symbol : String) : String :=
  if symbol = "" then symbol
  else
    let upper := upperStr symbol
    if endsWithStr upper "-USDT" ∨ endsWithStr upper "-USD" ∨
        endsWithStr upper "-USDC" then upper
    else upper ++ "-USDT"

/-- Embeds the venue-side computation of `StrategyService._execute_level`
(service.py lines 401-406): ENTRY trades on `level.side` (lowercased);
TAKE_PROFIT and STOP_LOSS close by trading the opposite side. -/
def trade_side (side : String) (monitor : MonitorType) : String :=
  let side_lower := lowerStr side
  if monitor = .TAKE_PROFIT ∨ monitor = .STOP_LOSS then
    if side_lower = "buy" then "sell" else "buy"
  else side_lower

/-- The opposite venue side, in the words of the spec: buy becomes sell,
sell becomes buy. -/
def opposite_side (side : String) : String :=
  if side = "buy" then "sell" else if side = "sell" then "buy" else side

/-- Python `str.startswith`. -/
def startsWithStr (s head : String) : Bool := head.data.isPrefixOf s.data

/-- Python truthiness of an optional price, as used by `_sync_monitors`
for `level.trigger_price`: `None` and `0.0` are falsy. -/
def truthy_price : Option ℚ → Bool
  | none => false
  | some p => p != 0

/-- Python truthiness of an optional string, as used by `_sync_monitors`
for `level.trigger_level_id`: `None` and `""` are falsy. -/
def truthy_str : Option String → Bool
  | none => false
  | some s => s != ""

/-- Embeds `StrategyService._spot_symbol_for_level` (service.py lines
380-385): `BTCUSDT` for BTC-based option symbols, else `None`. -/
def spot_symbol_for_level (level : StrategyLevel) : Option String :=
  if startsWithStr (upperStr level.option_symbol) "BTC" then some "BTCUSDT"
  else none

/-- The level-status effect of one `_sync_monitors` loop iteration
(service.py lines 292-344) on a non-terminal level.  The scan of
`level.executions` for a successful ENTRY record (lines 287-290) is
passed in as `entry_executed`; executions are not otherwise modelled, so
the theorems below quantify over it. -/
def sync_level_update (level : StrategyLevel) (entry_executed : Bool) :
    StrategyLevel :=
  if level.trigger_type = "conditional" ∧ truthy_price level.trigger_price = true ∧
      entry_executed = false then
    { level with status := .monitoring }
  else if level.trigger_type = "btc_price" ∧ truthy_price level.trigger_price = true ∧
      entry_executed = false then
    match spot_symbol_for_level level with
    | none => { level with status := .pending }
    | some _ => { level with status := .monitoring }
  else if level.trigger_type = "immediate" ∧ entry_executed = false then
    { level with status := .monitoring }
  else if level.trigger_type = "existing_position" then
    { level with status := .monitoring }
  else if level.trigger_type = "level_close" then
    if truthy_str level.trigger_level_id = false then
      { level with status := .pending }
    else if entry_executed = false then
      { level with status := .waiting }
    else level
  else level

/-- Embeds the level-status effect of `StrategyService._sync_monitors`
(service.py lines 275-378): nothing changes unless the strategy is
running, and a level whose status is completed, failed or cancelled is
skipped (the `continue` at line 282) before any branch can touch it. -/
def sync_monitors_status (st : TradingStrategy)
    (entry_executed : StrategyLevel → Bool) : TradingStrategy :=
  if st.status ≠ .running then st
  else
    { st with levels := st.levels.map (fun l =>
        if l.status = .completed ∨ l.status = .failed ∨ l.status = .cancelled then l
        else sync_level_update l (entry_executed l)) }

/-- Embeds one iteration of `LevelExecutor._run` (executor.py lines
60-132) together with the callback `StrategyService._execute_level`
(service.py lines 387-461), with the venue outcome supplied as `success`:

* the dequeued task's level is stored with status `executing`;
* a venue order is placed on the normalized symbol with the mapped side;
* ENTRY success keeps the level `monitoring` when take-profit or stop-loss
  is configured (post-entry monitors are provisioned), otherwise
  `completed`; ENTRY failure gives `failed`;
* TAKE_PROFIT/STOP_LOSS success gives `completed` and runs
  `_trigger_linked_levels` (whose new ENTRY tasks join the queue tail);
  failure gives `failed`;
* the resulting level is stored (`status_override`) and the attempt is
  appended to the trade log. -/
def executor_step (e : EngineState) (success : Bool) : EngineState :=
  match e.queue with
  | [] => e
  | task :: rest =>
    let lvl0 := { task.level with status := LevelStatus.executing }
    let st0 := storage_update_level e.strategy task.strategy_id lvl0
    let order := (normalize_symbol lvl0.option_symbol,
                  trade_side lvl0.side task.monitor_type)
    let step :=
      match task.monitor_type with
      | .ENTRY =>
        if success then
          if lvl0.take_profit.isSome ∨ lvl0.stop_loss.isSome then
            (storage_update_level st0 task.strategy_id
               { lvl0 with status := LevelStatus.monitoring }, ([] : List ExecutionTask))
          else
            (storage_update_level st0 task.strategy_id
               { lvl0 with status := LevelStatus.completed }, [])
        else
          (storage_update_level st0 task.strategy_id
             { lvl0 with status := LevelStatus.failed }, [])
      | m =>
        if success then
          let linked :=
            if task.strategy_id == st0.strategy_id then
              trigger_linked_levels st0 lvl0.level_id m
            else (st0, [])
          (storage_update_level linked.1 task.strategy_id
             { lvl0 with status := LevelStatus.completed }, linked.2)
        else
          (storage_update_level st0 task.strategy_id
             { lvl0 with status := LevelStatus.failed }, [])
    { strategy := step.1
      queue := rest ++ step.2
      trades := e.trades ++ [(lvl0.level_id, task.monitor_type, success)]
      orders := e.orders ++ [order] }

/-! ## Monitor client (src/strategy_manager/monitor_client.py) -/

/-- The create payload assembled by `MonitorClient.sync_level_tasks`
(monitor_client.py lines 63-73), restricted to the fields the claims
use. -/
structure CreatePayload where
  task_id : String
  strategy_id : String
  level_id : String
  monitor_type : String
  option_symbol : String
  target_price : ℚ
  webhook_url : String
  deriving Repr, DecidableEq

/-- The deterministic task id of `MonitorClient.sync_level_tasks`
(monitor_client.py line 61):
`f"strategy-{strategy_id}-{level_id}-{monitor_type.value}".lower()`. -/
def sync_task_id (strategy_id level_id : String) (monitor : MonitorType) : String :=
  lowerStr ("strategy-" ++ strategy_id ++ "-" ++ level_id ++ "-" ++ monitor.value)

/-- Embeds `MonitorClient.sync_level_tasks` (monitor_client.py lines
36-78): one create call per monitor definition, each with the
deterministic task id and the definition's target price. -/
def sync_level_tasks (strategy_id level_id option_symbol : String)
    (monitor_definitions : List (MonitorType × ℚ)) (webhook_url : String) :
    List CreatePayload :=
  monitor_definitions.map (fun d =>
    { task_id := sync_task_id strategy_id level_id d.1
      strategy_id := strategy_id
      level_id := level_id
      monitor_type := d.1.value
      option_symbol := option_symbol
      target_price := d.2
      webhook_url := webhook_url })

/-- Invariant carried by a task run: while the task is still `active` no
webhook has been sent, never more than one webhook is sent, and once one
has been sent the task is `triggered` and out of the active map. -/
def AtMostOnceInv (s : TaskRun) : Prop :=
  (s.task.status = "active" → s.webhooks = []) ∧
  s.webhooks.length ≤ 1 ∧
  (s.webhooks ≠ [] → s.task.status = "triggered" ∧ s.inActive = false)

/-! ## Helper lemmas: price monitor -/

theorem processPrices_cons (s : TaskRun) (symbol : String) (p : ℚ) (ps : List ℚ) :
    processPrices s symbol (p :: ps) = processPrices (on_price_update s symbol p) symbol ps :=
  rfl

theorem on_price_update_not_active (s : TaskRun) (symbol : String) (p : ℚ)
    (h : ¬(s.inActive = true ∧ s.task.monitor_instrument = "option" ∧
      s.task.monitor_symbol = symbol ∧ s.task.status = "active")) :
    on_price_update s symbol p = s := by
  unfold on_price_update
  rw [if_neg h]

theorem on_price_update_active (s : TaskRun) (symbol : String) (p : ℚ)
    (h1 : s.inActive = true) (h2 : s.task.monitor_instrument = "option")
    (h3 : s.task.monitor_symbol = symbol) (h4 : s.task.status = "active") :
    on_price_update s symbol p =
      if check_price_target s.task p ≠ "" then
        trigger_task s p (check_price_target s.task p)
      else { s with task := { s.task with
                                previous_price := s.task.current_price
                                current_price := some p } } := by
  unfold on_price_update
  rw [if_pos ⟨h1, h2, h3, h4⟩]

theorem processPrices_not_in_active (symbol : String) (ps : List ℚ) :
    ∀ s : TaskRun, s.inActive = false → processPrices s symbol ps = s := by
  induction ps with
  | nil => intro s _; rfl
  | cons p rest ih =>
    intro s hs
    rw [processPrices_cons, on_price_update_not_active s symbol p]
    · exact ih s hs
    · rintro ⟨h1, -⟩
      rw [hs] at h1
      exact Bool.false_ne_true h1

theorem trigger_task_of_active (s : TaskRun) (p : ℚ) (dir : String)
    (h : s.task.status = "active") :
    (trigger_task s p dir).task.status = "triggered" ∧
    (trigger_task s p dir).inActive = false ∧
    (trigger_task s p dir).webhooks = s.webhooks ++ [{
      task_id := s.task.task_id
      monitor_symbol := s.task.monitor_symbol
      target_price := s.task.target_price
      triggered_price := p
      previous_price := s.task.previous_price.getD 0
      trigger_direction := dir }] := by
  unfold trigger_task
  rw [if_neg (by simp [h])]
  exact ⟨rfl, rfl, rfl⟩

theorem check_price_target_empty_iff (task : MonitorTask) (a p : ℚ)
    (h : task.previous_price = some a) :
    check_price_target task p = "" ↔ ¬ crossPred a task.target_price p := by
  unfold check_price_target
  rw [h]
  show (if a < task.target_price ∧ task.target_price ≤ p then "up_cross"
    else if a > task.target_price ∧ task.target_price ≥ p then "down_cross"
    else "") = "" ↔ ¬ crossPred a task.target_price p
  split_ifs with h1 h2
  · exact iff_of_false (by decide) (fun hn => hn (Or.inl h1))
  · exact iff_of_false (by decide) (fun hn => hn (Or.inr h2))
  · refine iff_of_true rfl ?_
    rintro (hc | hc)
    · exact h1 hc
    · exact h2 hc

theorem exists_cross_shift {target a b p : ℚ} {rest : List ℚ}
    (hc : ¬ crossPred a target p) :
    (∃ k, k < rest.length ∧
        crossPred ((b :: p :: rest).getD k 0) target (rest.getD k 0)) ↔
    (∃ k, k < (p :: rest).length ∧
        crossPred ((a :: b :: p :: rest).getD k 0) target ((p :: rest).getD k 0)) := by
  constructor
  · rintro ⟨k, hk, hcr⟩
    refine ⟨k + 1, by simpa using Nat.succ_lt_succ hk, ?_⟩
    simpa [List.getD_cons_succ] using hcr
  · rintro ⟨k, hk, hcr⟩
    match k with
    | 0 =>
      rw [List.getD_cons_zero, List.getD_cons_zero] at hcr
      exact absurd hcr hc
    | k + 1 =>
      refine ⟨k, by simpa using hk, ?_⟩
      simpa [List.getD_cons_succ] using hcr

theorem processPrices_midrun_iff (task : MonitorTask) (symbol : String)
    (hin : task.monitor_instrument = "option") (hsym : task.monitor_symbol = symbol)
    (hst : task.status = "active") (ps : List ℚ) :
    ∀ a b : ℚ,
    ((processPrices
        ⟨{ task with previous_price := some a, current_price := some b },
          true, []⟩ symbol ps).task.status = "triggered")
    ↔ ∃ k, k < ps.length ∧
        crossPred ((a :: b :: ps).getD k 0) task.target_price (ps.getD k 0) := by
  induction ps with
  | nil =>
    intro a b
    refine iff_of_false ?_ ?_
    · show ¬ task.status = "triggered"
      rw [hst]
      decide
    · rintro ⟨k, hk, -⟩
      exact absurd hk (by simp)
  | cons p rest ih =>
    intro a b
    set s0 : TaskRun :=
      ⟨{ task with previous_price := some a, current_price := some b }, true, []⟩
      with hs0
    rw [processPrices_cons, on_price_update_active s0 symbol p rfl hin hsym hst]
    by_cases hc : crossPred a task.target_price p
    · have hne : check_price_target s0.task p ≠ "" := by
        rw [Ne, check_price_target_empty_iff s0.task a p rfl]
        exact not_not_intro hc
      rw [if_pos hne]
      have htr := trigger_task_of_active s0 p (check_price_target s0.task p) hst
      rw [processPrices_not_in_active symbol rest _ htr.2.1]
      refine iff_of_true htr.1 ⟨0, by simp, ?_⟩
      rw [List.getD_cons_zero, List.getD_cons_zero]
      exact hc
    · have heq : check_price_target s0.task p = "" := by
        rw [check_price_target_empty_iff s0.task a p rfl]
        exact hc
      rw [if_neg (not_not_intro heq)]
      exact (ih b p).trans (exists_cross_shift hc)

theorem on_price_update_no_history (s : TaskRun) (symbol : String) (p : ℚ)
    (h1 : s.inActive = true) (h2 : s.task.monitor_instrument = "option")
    (h3 : s.task.monitor_symbol = symbol) (h4 : s.task.status = "active")
    (h5 : s.task.previous_price = none) :
    on_price_update s symbol p =
      { s with task := { s.task with
                           previous_price := s.task.current_price
                           current_price := some p } } := by
  rw [on_price_update_active s symbol p h1 h2 h3 h4, if_neg]
  intro hne
  apply hne
  unfold check_price_target
  rw [h5]

theorem processPrices_start_two (id symbol : String) (target : ℚ) (p q : ℚ)
    (rest : List ℚ) :
    processPrices (startRun (mkTask id symbol target)) symbol (p :: q :: rest) =
    processPrices
      ⟨{ mkTask id symbol target with previous_price := some p, current_price := some q },
        true, []⟩ symbol rest := by
  rw [processPrices_cons, on_price_update_no_history _ symbol p rfl rfl rfl rfl rfl,
    processPrices_cons, on_price_update_no_history _ symbol q rfl rfl rfl rfl rfl]
  rfl

theorem on_price_update_preserves_inv (s : TaskRun) (symbol : String) (p : ℚ)
    (h : AtMostOnceInv s) : AtMostOnceInv (on_price_update s symbol p) := by
  unfold on_price_update
  split_ifs with hcond hdir
  · have hwh := h.1 hcond.2.2.2
    have htr := trigger_task_of_active s p (check_price_target s.task p) hcond.2.2.2
    refine ⟨?_, ?_, ?_⟩
    · intro hact
      rw [htr.1] at hact
      exact absurd hact (by decide)
    · rw [htr.2.2, hwh]
      simp
    · intro _
      exact ⟨htr.1, htr.2.1⟩
  · have hwh := h.1 hcond.2.2.2
    exact ⟨fun _ => hwh, h.2.1, fun hne => (hne hwh).elim⟩
  · exact h

theorem processPrices_preserves_inv (symbol : String) (ps : List ℚ) :
    ∀ s : TaskRun, AtMostOnceInv s → AtMostOnceInv (processPrices s symbol ps) := by
  induction ps with
  | nil => exact fun s h => h
  | cons p rest ih =>
    intro s h
    rw [processPrices_cons]
    exact ih _ (on_price_update_preserves_inv s symbol p h)

/-! ## Claim C1 -/

/-- Claim C1, counterexample: with target 100 the price sequence
`(95, 100)` contains an adjacent up-cross (`p1 < 100 ≤ p2`), so the claim
says the task triggers, but the code leaves it `active`:
`_check_price_target` reads `task.previous_price`, which is still `None`
after the sequence's first observation. -/
theorem c1_counterexample :
    specAdjacentCross 100 [95, 100] ∧
    (processPrices (startRun (mkTask "t" "SYM" 100)) "SYM" [95, 100]).task.status
      ≠ "triggered" := by
  constructor
  · exact ⟨0, by decide, by decide⟩
  · decide

/-- Claim C1, amended: a monitor task with target `T` triggers on a price
sequence `ps` iff some observation `ps[j+2]` crosses `T` relative to the
observation two steps earlier, `ps[j]`: the detection in
`_check_price_target` compares `task.previous_price` — which lags one
observation behind the last observed price — with the new price, so the
first possible trigger is at the third observation and the comparison
skips the immediately preceding observation. -/
theorem c1_cross_detection_amended (id symbol : String) (target : ℚ) (ps : List ℚ) :
    (processPrices (startRun (mkTask id symbol target)) symbol ps).task.status
        = "triggered"
    ↔ ∃ j, j + 2 < ps.length ∧ crossPred (ps.getD j 0) target (ps.getD (j + 2) 0) := by
  match ps with
  | [] =>
    refine iff_of_false ?_ ?_
    · show ¬(("active" : String) = "triggered")
      decide
    · rintro ⟨j, hj, -⟩
      simp at hj
  | [p] =>
    rw [processPrices_cons, on_price_update_no_history _ symbol p rfl rfl rfl rfl rfl]
    refine iff_of_false ?_ ?_
    · show ¬(("active" : String) = "triggered")
      decide
    · rintro ⟨j, hj, -⟩
      simp at hj
  | p :: q :: rest =>
    rw [processPrices_start_two id symbol target p q rest,
      processPrices_midrun_iff (mkTask id symbol target) symbol rfl rfl rfl rest p q]
    constructor
    · rintro ⟨k, hk, hcr⟩
      refine ⟨k, ?_, ?_⟩
      · simp only [List.length_cons]
        omega
      · have hgd : (p :: q :: rest).getD (k + 2) 0 = rest.getD k 0 := by
          simp [List.getD_cons_succ]
        rw [hgd]
        exact hcr
    · rintro ⟨j, hj, hcr⟩
      refine ⟨j, ?_, ?_⟩
      · simp only [List.length_cons] at hj
        omega
      · have hgd : (p :: q :: rest).getD (j + 2) 0 = rest.getD j 0 := by
          simp [List.getD_cons_succ]
        rw [hgd] at hcr
        exact hcr

/-! ## Claim C2 -/

/-- Claim C2: for every monitor task and every price sequence, at most one
webhook is delivered; once a webhook exists the task's status is
`triggered` (the status write and active-map removal precede the send
inside `_trigger_task`), the task is out of the active map, and every
later price update leaves the state unchanged. -/
theorem c2_at_most_one_webhook (id symbol : String) (target : ℚ) (ps qs : List ℚ) :
    (processPrices (startRun (mkTask id symbol target)) symbol ps).webhooks.length ≤ 1 ∧
    ((processPrices (startRun (mkTask id symbol target)) symbol ps).webhooks ≠ [] →
      (processPrices (startRun (mkTask id symbol target)) symbol ps).task.status
          = "triggered" ∧
      (processPrices (startRun (mkTask id symbol target)) symbol ps).inActive = false ∧
      processPrices (processPrices (startRun (mkTask id symbol target)) symbol ps)
          symbol qs
        = processPrices (startRun (mkTask id symbol target)) symbol ps) := by
  have hinv : AtMostOnceInv (processPrices (startRun (mkTask id symbol target)) symbol ps) :=
    processPrices_preserves_inv symbol ps _
      ⟨fun _ => rfl, Nat.zero_le 1, fun h => (h rfl).elim⟩
  refine ⟨hinv.2.1, fun hne => ?_⟩
  have h3 := hinv.2.2 hne
  exact ⟨h3.1, h3.2, processPrices_not_in_active symbol qs _ h3.2⟩

/-- Witness for `c2_at_most_one_webhook`: the run over `(95, 99, 100)`
with target 100 delivers a webhook, and the theorem's conclusions hold
there. -/
theorem c2_at_most_one_webhook_witness :
    (processPrices (startRun (mkTask "t" "S" 100)) "S" [95, 99, 100]).webhooks ≠ [] ∧
    ((processPrices (startRun (mkTask "t" "S" 100)) "S" [95, 99, 100]).webhooks.length ≤ 1 ∧
    ((processPrices (startRun (mkTask "t" "S" 100)) "S" [95, 99, 100]).webhooks ≠ [] →
      (processPrices (startRun (mkTask "t" "S" 100)) "S" [95, 99, 100]).task.status
          = "triggered" ∧
      (processPrices (startRun (mkTask "t" "S" 100)) "S" [95, 99, 100]).inActive = false ∧
      processPrices (processPrices (startRun (mkTask "t" "S" 100)) "S" [95, 99, 100])
          "S" [101]
        = processPrices (startRun (mkTask "t" "S" 100)) "S" [95, 99, 100])) :=
  ⟨by decide, c2_at_most_one_webhook "t" "S" 100 [95, 99, 100] [101]⟩

/-! ## Claim C7 -/

/-- Claim C7, counterexample: for target 100 and prices 95, 99, 100, the
webhook does fire exactly once with `up_cross` and triggered price 100,
but its `previous_price` field is 95 — not 99 as the claim states —
because `_send_webhook` reads `task.previous_price`, which lags one
observation behind the last observed price. -/
theorem c7_counterexample :
    (processPrices (startRun (mkTask "t" "SYM" 100)) "SYM" [95, 99, 100]).webhooks =
      [{ task_id := "t", monitor_symbol := "SYM", target_price := 100,
         triggered_price := 100, previous_price := 95,
         trigger_direction := "up_cross" }] ∧
    (95 : ℚ) ≠ 99 := by
  constructor
  · decide
  · decide

/-- Claim C7, amended: feeding 95, 99, 100 to a task with target 100
fires the webhook exactly once with `trigger_direction = "up_cross"`,
`triggered_price = 100` and `previous_price = 95` (the observation two
steps back); a fourth price 101 produces no further webhook. -/
theorem c7_amended_scenario :
    (processPrices (startRun (mkTask "t" "SYM" 100)) "SYM" [95, 99, 100]).webhooks =
      [{ task_id := "t", monitor_symbol := "SYM", target_price := 100,
         triggered_price := 100, previous_price := 95,
         trigger_direction := "up_cross" }] ∧
    (processPrices (startRun (mkTask "t" "SYM" 100)) "SYM" [95, 99, 100, 101]).webhooks =
      [{ task_id := "t", monitor_symbol := "SYM", target_price := 100,
         triggered_price := 100, previous_price := 95,
         trigger_direction := "up_cross" }] := by
  constructor
  · decide
  · decide

/-! ## Helper lemmas: strategy engine -/

theorem find?_level_map (levels : List StrategyLevel) (f : StrategyLevel → StrategyLevel)
    (hf : ∀ l, (f l).level_id = l.level_id) (lid : String) :
    (levels.map f).find? (fun l => l.level_id == lid)
      = (levels.find? (fun l => l.level_id == lid)).map f := by
  rw [List.find?_map]
  have hpred : ((fun l => l.level_id == lid) ∘ f) = (fun l => l.level_id == lid) := by
    funext l
    simp [Function.comp, hf l]
  rw [hpred]

theorem find?_level_append (levels : List StrategyLevel) (lvl : StrategyLevel)
    (lid : String) (h : ¬ lvl.level_id = lid) :
    (levels ++ [lvl]).find? (fun l => l.level_id == lid)
      = levels.find? (fun l => l.level_id == lid) := by
  rw [List.find?_append]
  have hnone : List.find? (fun l => l.level_id == lid) [lvl] = none := by
    rw [List.find?_cons_of_neg _ (by simpa using h)]
    rfl
  rw [hnone, Option.or_none]

theorem findLevel_update_other (st : TradingStrategy) (lvl : StrategyLevel)
    (lid : String) (h : lid ≠ lvl.level_id) :
    findLevel (update_level st lvl) lid = findLevel st lid := by
  unfold findLevel update_level
  split_ifs with hany
  · show (st.levels.map fun l => if l.level_id == lvl.level_id then lvl else l).find?
        (fun l => l.level_id == lid) = _
    rw [find?_level_map st.levels _ ?hid lid]
    case hid =>
      intro l
      by_cases hl : l.level_id = lvl.level_id
      · simp [hl]
      · simp [hl]
    cases hfind : st.levels.find? (fun l => l.level_id == lid) with
    | none => rfl
    | some l0 =>
      have hl0 : l0.level_id = lid := by simpa using List.find?_some hfind
      have : (if l0.level_id == lvl.level_id then lvl else l0) = l0 := by
        rw [if_neg]
        simp only [beq_iff_eq, hl0]
        exact h
      rw [Option.map_some', this]
  · show (st.levels ++ [lvl]).find? (fun l => l.level_id == lid) = _
    exact find?_level_append st.levels lvl lid (fun hc => h hc.symm)

theorem findLevel_storage_update_other (st : TradingStrategy) (sid : String)
    (lvl : StrategyLevel) (lid : String) (h : lid ≠ lvl.level_id) :
    findLevel (storage_update_level st sid lvl) lid = findLevel st lid := by
  unfold storage_update_level
  split_ifs with hs
  · exact findLevel_update_other st lvl lid h
  · rfl

theorem update_level_strategy_id (st : TradingStrategy) (lvl : StrategyLevel) :
    (update_level st lvl).strategy_id = st.strategy_id := by
  unfold update_level
  split_ifs <;> rfl

theorem storage_update_level_strategy_id (st : TradingStrategy) (sid : String)
    (lvl : StrategyLevel) :
    (storage_update_level st sid lvl).strategy_id = st.strategy_id := by
  unfold storage_update_level
  split_ifs with hs
  · exact update_level_strategy_id st lvl
  · rfl

theorem findLevel_trigger_linked (st : TradingStrategy) (cid : String)
    (m : MonitorType) (lid : String) :
    findLevel (trigger_linked_levels st cid m).1 lid
      = (findLevel st lid).map (fun l =>
          if linkedEligible l cid m then { l with status := .monitoring } else l) := by
  unfold findLevel trigger_linked_levels
  show (st.levels.map fun l =>
      if linkedEligible l cid m then { l with status := LevelStatus.monitoring } else l).find?
        (fun l => l.level_id == lid) = _
  rw [find?_level_map st.levels _ ?hid lid]
  case hid =>
    intro l
    by_cases hl : linkedEligible l cid m
    · rw [if_pos hl]
    · rw [if_neg hl]

theorem mem_update_level_of_ne (st : TradingStrategy) (lvl l : StrategyLevel)
    (hmem : l ∈ st.levels) (h : l.level_id ≠ lvl.level_id) :
    l ∈ (update_level st lvl).levels := by
  unfold update_level
  split_ifs with hany
  · show l ∈ st.levels.map fun x => if x.level_id == lvl.level_id then lvl else x
    have : (if l.level_id == lvl.level_id then lvl else l) = l := by
      rw [if_neg]
      simpa using h
    rw [← this]
    exact List.mem_map_of_mem _ hmem
  · exact List.mem_append_left _ hmem

theorem mem_storage_update_level_of_ne (st : TradingStrategy) (sid : String)
    (lvl l : StrategyLevel) (hmem : l ∈ st.levels) (h : l.level_id ≠ lvl.level_id) :
    l ∈ (storage_update_level st sid lvl).levels := by
  unfold storage_update_level
  split_ifs with hs
  · exact mem_update_level_of_ne st lvl l hmem h
  · exact hmem

theorem sync_level_update_level_id (l : StrategyLevel) (b : Bool) :
    (sync_level_update l b).level_id = l.level_id := by
  unfold sync_level_update
  split_ifs <;> first
    | rfl
    | (cases spot_symbol_for_level l <;> rfl)

theorem handle_webhook_strategy (e : EngineState) (sid lid : String)
    (m : MonitorType) : (handle_webhook e sid lid m).strategy = e.strategy := by
  unfold handle_webhook
  split
  · rfl
  · split
    · rfl
    · split_ifs <;> rfl

theorem processPrices_status_not_active (symbol : String) (ps : List ℚ) :
    ∀ s : TaskRun, s.task.status ≠ "active" → processPrices s symbol ps = s := by
  induction ps with
  | nil => exact fun s _ => rfl
  | cons p rest ih =>
    intro s hs
    rw [processPrices_cons, on_price_update_not_active s symbol p]
    · exact ih s hs
    · rintro ⟨-, -, -, h4⟩
      exact hs h4

/-! ## Claim C3 -/

/-- Claim C3, counterexample: a level in `monitoring` receives a webhook
(enqueuing an execution task), the strategy is stopped (the level becomes
`cancelled`, a terminal status), and then the executor processes the
queued task: `LevelExecutor._run` unconditionally writes `executing` and
then the execution outcome, so the stored level leaves `cancelled` and
ends `completed`. -/
theorem c3_counterexample :
    levelStatus (stop_strategy (handle_webhook
      ⟨⟨"s1", "", .running,
        [⟨"l1", "BTC-27DEC25-100000-C", "buy", "0.1", "conditional", some 50,
          none, none, "Market", none, .monitoring, none, none⟩]⟩,
       [], [], []⟩ "s1" "l1" .ENTRY)) "l1"
      = some .cancelled ∧
    levelStatus (executor_step (stop_strategy (handle_webhook
      ⟨⟨"s1", "", .running,
        [⟨"l1", "BTC-27DEC25-100000-C", "buy", "0.1", "conditional", some 50,
          none, none, "Market", none, .monitoring, none, none⟩]⟩,
       [], [], []⟩ "s1" "l1" .ENTRY)) true) "l1"
      = some .completed := by
  constructor
  · decide
  · decide

/-- Claim C3, amended: terminal states are absorbing under price
processing and triggering on the monitor side (a `triggered` or `expired`
task is never touched again: `_trigger_task` returns on non-active status
and `_on_price_update` only considers active tasks), and on the strategy
side under webhook ingestion (which never changes a level status), sync
(`_sync_monitors` skips completed/failed/cancelled levels, for every
value of the executions scan), pause, and stop — but NOT under executor
processing of already-queued tasks, which overwrites a terminal status
(see the counterexample). -/
theorem c3_terminal_absorbing_amended :
    (∀ (s : TaskRun) (p : ℚ) (dir : String),
      s.task.status = "triggered" ∨ s.task.status = "expired" →
        trigger_task s p dir = s) ∧
    (∀ (s : TaskRun) (symbol : String) (ps : List ℚ),
      s.task.status = "triggered" ∨ s.task.status = "expired" →
        processPrices s symbol ps = s) ∧
    (∀ (e : EngineState) (sid lid : String) (m : MonitorType),
      (handle_webhook e sid lid m).strategy = e.strategy) ∧
    (∀ (e : EngineState) (lid : String) (st : LevelStatus),
      levelStatus e lid = some st →
      st = .completed ∨ st = .failed ∨ st = .cancelled →
        levelStatus (pause_strategy e) lid = some st ∧
        levelStatus (stop_strategy e) lid = some st) ∧
    (∀ (st : TradingStrategy) (f : StrategyLevel → Bool) (lid : String)
        (s : LevelStatus),
      (findLevel st lid).map (fun l => l.status) = some s →
      s = .completed ∨ s = .failed ∨ s = .cancelled →
        (findLevel (sync_monitors_status st f) lid).map (fun l => l.status)
          = some s) := by
  refine ⟨?_, ?_, ?_, ?_, ?_⟩
  · intro s p dir h
    unfold trigger_task
    rw [if_pos]
    rcases h with h | h <;> rw [h] <;> decide
  · intro s symbol ps h
    apply processPrices_status_not_active
    rcases h with h | h <;> rw [h] <;> decide
  · exact handle_webhook_strategy
  · intro e lid st hfind hterm
    obtain ⟨l0, hl0, hstat⟩ := Option.map_eq_some'.mp hfind
    constructor
    · show (findLevel (pause_strategy e).strategy lid).map (fun l => l.status) = some st
      have hfl : findLevel (pause_strategy e).strategy lid
          = (findLevel e.strategy lid).map (fun l =>
              if l.status = .monitoring then { l with status := .pending } else l) := by
        show (e.strategy.levels.map fun l =>
            if l.status = .monitoring then { l with status := LevelStatus.pending }
            else l).find? (fun l => l.level_id == lid) = _
        rw [find?_level_map e.strategy.levels _ ?hid lid]
        case hid =>
          intro l
          by_cases hl : l.status = .monitoring
          · rw [if_pos hl]
          · rw [if_neg hl]
        rfl
      rw [hfl, hl0, Option.map_some', Option.map_some', if_neg]
      · rw [hstat]
      · rw [hstat]
        rcases hterm with h | h | h <;> rw [h] <;> decide
    · show (findLevel (stop_strategy e).strategy lid).map (fun l => l.status) = some st
      have hfl : findLevel (stop_strategy e).strategy lid
          = (findLevel e.strategy lid).map (fun l =>
              if l.status ≠ .completed ∧ l.status ≠ .failed then
                { l with status := .cancelled }
              else l) := by
        show (e.strategy.levels.map fun l =>
            if l.status ≠ .completed ∧ l.status ≠ .failed then
              { l with status := LevelStatus.cancelled }
            else l).find? (fun l => l.level_id == lid) = _
        rw [find?_level_map e.strategy.levels _ ?hid lid]
        case hid =>
          intro l
          by_cases hl : l.status ≠ .completed ∧ l.status ≠ .failed
          · rw [if_pos hl]
          · rw [if_neg hl]
        rfl
      rw [hfl, hl0, Option.map_some', Option.map_some']
      rcases hterm with h | h | h
      · rw [if_neg]
        · rw [hstat]
        · rw [hstat, h]
          decide
      · rw [if_neg]
        · rw [hstat]
        · rw [hstat, h]
          decide
      · rw [if_pos]
        · rw [h]
        · rw [hstat, h]
          exact ⟨by decide, by decide⟩
  · intro st f lid s hfindsync hterm
    obtain ⟨l0, hl0, hstat⟩ := Option.map_eq_some'.mp hfindsync
    unfold sync_monitors_status
    split_ifs with hrun
    · exact hfindsync
    · have hfl : findLevel
          { st with levels := st.levels.map (fun l =>
              if l.status = .completed ∨ l.status = .failed ∨ l.status = .cancelled
              then l else sync_level_update l (f l)) } lid
          = (findLevel st lid).map (fun l =>
              if l.status = .completed ∨ l.status = .failed ∨ l.status = .cancelled
              then l else sync_level_update l (f l)) := by
        show (st.levels.map fun l =>
            if l.status = .completed ∨ l.status = .failed ∨ l.status = .cancelled
            then l else sync_level_update l (f l)).find?
              (fun l => l.level_id == lid) = _
        rw [find?_level_map st.levels _ ?hid lid]
        case hid =>
          intro l
          by_cases hl : l.status = .completed ∨ l.status = .failed ∨
              l.status = .cancelled
          · rw [if_pos hl]
          · rw [if_neg hl]
            exact sync_level_update_level_id l (f l)
        rfl
      rw [hfl, hl0, Option.map_some', Option.map_some', if_pos]
      · rw [hstat]
      · rw [hstat]
        exact hterm

/-- Witness for `c3_terminal_absorbing_amended` at concrete inputs: a
triggered task is untouched by `trigger_task` and by further prices, a
webhook never changes level statuses, and a completed level survives
pause, stop and sync. -/
theorem c3_terminal_absorbing_amended_witness :
    (trigger_task ⟨{ mkTask "t" "S" 100 with status := "triggered" }, false, []⟩ 1 "up_cross"
      = ⟨{ mkTask "t" "S" 100 with status := "triggered" }, false, []⟩) ∧
    (processPrices ⟨{ mkTask "t" "S" 100 with status := "expired" }, false, []⟩ "S" [1, 2]
      = ⟨{ mkTask "t" "S" 100 with status := "expired" }, false, []⟩) ∧
    ((handle_webhook
      ⟨⟨"s1", "", .running,
        [⟨"l1", "BTC-27DEC25-100000-C", "buy", "0.1", "conditional", some 50,
          none, none, "Market", none, .completed, none, none⟩]⟩,
       [], [], []⟩ "s1" "l1" .ENTRY).strategy
      = ⟨"s1", "", .running,
        [⟨"l1", "BTC-27DEC25-100000-C", "buy", "0.1", "conditional", some 50,
          none, none, "Market", none, .completed, none, none⟩]⟩) ∧
    (levelStatus (pause_strategy
      ⟨⟨"s1", "", .running,
        [⟨"l1", "BTC-27DEC25-100000-C", "buy", "0.1", "conditional", some 50,
          none, none, "Market", none, .completed, none, none⟩]⟩,
       [], [], []⟩) "l1" = some .completed ∧
     levelStatus (stop_strategy
      ⟨⟨"s1", "", .running,
        [⟨"l1", "BTC-27DEC25-100000-C", "buy", "0.1", "conditional", some 50,
          none, none, "Market", none, .completed, none, none⟩]⟩,
       [], [], []⟩) "l1" = some .completed) ∧
    ((findLevel (sync_monitors_status
      ⟨"s1", "", .running,
        [⟨"l1", "BTC-27DEC25-100000-C", "buy", "0.1", "conditional", some 50,
          none, none, "Market", none, .completed, none, none⟩]⟩
      (fun _ => false)) "l1").map (fun l => l.status) = some .completed) :=
  ⟨c3_terminal_absorbing_amended.1 _ 1 "up_cross" (Or.inl rfl),
   c3_terminal_absorbing_amended.2.1 _ "S" [1, 2] (Or.inr rfl),
   c3_terminal_absorbing_amended.2.2.1 _ "s1" "l1" .ENTRY,
   c3_terminal_absorbing_amended.2.2.2.1 _ "l1" .completed (by decide) (Or.inl rfl),
   c3_terminal_absorbing_amended.2.2.2.2 _ (fun _ => false) "l1" .completed
     (by decide) (Or.inl rfl)⟩

/-! ## Claim C4 -/

/-- Claim C4: when the executor processes a queued TAKE_PROFIT or
STOP_LOSS task for a parent level, a `level_close` level linked to that
parent (`trigger_level_id` matches) in a non-terminal, non-active status
(`pending` or `waiting`) ends in `monitoring` iff the venue call
succeeded and the fired monitor type is TAKE_PROFIT or STOP_LOSS whose
`.value` matches the linked level's `trigger_level_event` (or that event
is null); in that case an ENTRY execution task for the linked level joins
the queue, and otherwise the linked level keeps its previous status. -/
theorem c4_linked_level_triggering
    (e : EngineState) (parent : ExecutionTask) (rest : List ExecutionTask)
    (l : StrategyLevel) (success : Bool)
    (hq : e.queue = parent :: rest)
    (hsid : parent.strategy_id = e.strategy.strategy_id)
    (hfind : findLevel e.strategy l.level_id = some l)
    (hne : l.level_id ≠ parent.level.level_id)
    (htt : l.trigger_type = "level_close")
    (hlink : l.trigger_level_id = some parent.level.level_id)
    (hstat : l.status = .pending ∨ l.status = .waiting) :
    (levelStatus (executor_step e success) l.level_id = some .monitoring ↔
      (success = true ∧
       (parent.monitor_type = .TAKE_PROFIT ∨ parent.monitor_type = .STOP_LOSS) ∧
       (l.trigger_level_event = none ∨
        l.trigger_level_event = some parent.monitor_type.value))) ∧
    ((success = true ∧
       (parent.monitor_type = .TAKE_PROFIT ∨ parent.monitor_type = .STOP_LOSS) ∧
       (l.trigger_level_event = none ∨
        l.trigger_level_event = some parent.monitor_type.value)) →
      (⟨e.strategy.strategy_id, { l with status := .monitoring }, .ENTRY⟩ : ExecutionTask)
        ∈ (executor_step e success).queue) ∧
    (¬(success = true ∧
       (parent.monitor_type = .TAKE_PROFIT ∨ parent.monitor_type = .STOP_LOSS) ∧
       (l.trigger_level_event = none ∨
        l.trigger_level_event = some parent.monitor_type.value)) →
      levelStatus (executor_step e success) l.level_id = some l.status) := by
  obtain ⟨st, q, tr, orr⟩ := e
  obtain ⟨psid, plevel, pmon⟩ := parent
  dsimp only at hq hsid hfind hne hlink ⊢
  subst hq
  subst hsid
  have hnm : ¬ ((some l.status : Option LevelStatus) = some LevelStatus.monitoring) := by
    rcases hstat with h | h <;> rw [h] <;> decide
  have hkeep : ∀ s1 s2 : LevelStatus,
      Option.map (fun lv => lv.status)
        (findLevel (storage_update_level (storage_update_level st st.strategy_id
          { plevel with status := s1 }) st.strategy_id { plevel with status := s2 })
          l.level_id)
        = some l.status := by
    intro s1 s2
    rw [findLevel_storage_update_other
        (storage_update_level st st.strategy_id { plevel with status := s1 })
        st.strategy_id { plevel with status := s2 } l.level_id hne,
      findLevel_storage_update_other st st.strategy_id { plevel with status := s1 }
        l.level_id hne, hfind, Option.map_some']
  cases pmon with
  | ENTRY =>
    have hs2 : levelStatus (executor_step
        ⟨st, ⟨st.strategy_id, plevel, MonitorType.ENTRY⟩ :: rest, tr, orr⟩ success)
        l.level_id = some l.status := by
      simp only [executor_step]
      show (findLevel _ l.level_id).map (fun lv => lv.status) = some l.status
      split_ifs <;>
        · dsimp only
          rw [hkeep]
    refine ⟨iff_of_false ?_ ?_, ?_, fun _ => hs2⟩
    · rw [hs2]
      exact hnm
    · rintro ⟨-, hmm | hmm, -⟩ <;> exact absurd hmm (by decide)
    · rintro ⟨-, hmm | hmm, -⟩ <;> exact absurd hmm (by decide)
  | TAKE_PROFIT =>
    cases success with
    | false =>
      have hs2 : levelStatus (executor_step
          ⟨st, ⟨st.strategy_id, plevel, MonitorType.TAKE_PROFIT⟩ :: rest, tr, orr⟩ false)
          l.level_id = some l.status := by
        simp only [executor_step]
        rw [if_neg (by decide : ¬((false : Bool) = true))]
        show (findLevel _ l.level_id).map (fun lv => lv.status) = some l.status
        dsimp only
        rw [hkeep]
      refine ⟨iff_of_false ?_ ?_, ?_, fun _ => hs2⟩
      · rw [hs2]
        exact hnm
      · rintro ⟨hfalse, -, -⟩
        exact absurd hfalse (by decide)
      · rintro ⟨hfalse, -, -⟩
        exact absurd hfalse (by decide)
    | true =>
      have hcond : (st.strategy_id == (storage_update_level st st.strategy_id
          { plevel with status := LevelStatus.executing }).strategy_id) = true := by
        rw [storage_update_level_strategy_id]
        exact beq_self_eq_true _
      have hmeml : l ∈ (storage_update_level st st.strategy_id
          { plevel with status := LevelStatus.executing }).levels :=
        mem_storage_update_level_of_ne st st.strategy_id _ l
          (List.mem_of_find?_eq_some hfind) hne
      have hred : levelStatus (executor_step
          ⟨st, ⟨st.strategy_id, plevel, MonitorType.TAKE_PROFIT⟩ :: rest, tr, orr⟩ true)
          l.level_id
          = some ((if linkedEligible l plevel.level_id MonitorType.TAKE_PROFIT then
              { l with status := LevelStatus.monitoring } else l).status) := by
        simp only [executor_step]
        rw [if_pos hcond, if_true]
        show (findLevel _ l.level_id).map (fun lv => lv.status) = _
        dsimp only
        rw [findLevel_storage_update_other _ st.strategy_id
            { plevel with status := LevelStatus.completed } l.level_id hne,
          findLevel_trigger_linked,
          findLevel_storage_update_other st st.strategy_id
            { plevel with status := LevelStatus.executing } l.level_id hne,
          hfind, Option.map_some', Option.map_some']
      by_cases hev : l.trigger_level_event = none ∨
          l.trigger_level_event = some MonitorType.TAKE_PROFIT.value
      · have helig : linkedEligible l plevel.level_id MonitorType.TAKE_PROFIT :=
          ⟨htt, hlink, hev, by rcases hstat with h | h <;> rw [h] <;> decide⟩
        refine ⟨?_, fun _ => ?_, fun hnc => absurd ⟨rfl, Or.inl rfl, hev⟩ hnc⟩
        · rw [hred, if_pos helig]
          exact iff_of_true rfl ⟨rfl, Or.inl rfl, hev⟩
        · simp only [executor_step]
          rw [if_pos hcond, if_true]
          show _ ∈ rest ++ _
          refine List.mem_append_right _ ?_
          refine List.mem_filterMap.mpr ⟨l, hmeml, ?_⟩
          rw [if_pos helig, storage_update_level_strategy_id]
      · have helig : ¬ linkedEligible l plevel.level_id MonitorType.TAKE_PROFIT := by
          rintro ⟨-, -, hev', -⟩
          exact hev hev'
        have hs2 : levelStatus (executor_step
            ⟨st, ⟨st.strategy_id, plevel, MonitorType.TAKE_PROFIT⟩ :: rest, tr, orr⟩ true)
            l.level_id = some l.status := by
          rw [hred, if_neg helig]
        refine ⟨iff_of_false ?_ ?_, ?_, fun _ => hs2⟩
        · rw [hs2]
          exact hnm
        · rintro ⟨-, -, hev'⟩
          exact hev hev'
        · rintro ⟨-, -, hev'⟩
          exact absurd hev' hev
  | STOP_LOSS =>
    cases success with
    | false =>
      have hs2 : levelStatus (executor_step
          ⟨st, ⟨st.strategy_id, plevel, MonitorType.STOP_LOSS⟩ :: rest, tr, orr⟩ false)
          l.level_id = some l.status := by
        simp only [executor_step]
        rw [if_neg (by decide : ¬((false : Bool) = true))]
        show (findLevel _ l.level_id).map (fun lv => lv.status) = some l.status
        dsimp only
        rw [hkeep]
      refine ⟨iff_of_false ?_ ?_, ?_, fun _ => hs2⟩
      · rw [hs2]
        exact hnm
      · rintro ⟨hfalse, -, -⟩
        exact absurd hfalse (by decide)
      · rintro ⟨hfalse, -, -⟩
        exact absurd hfalse (by decide)
    | true =>
      have hcond : (st.strategy_id == (storage_update_level st st.strategy_id
          { plevel with status := LevelStatus.executing }).strategy_id) = true := by
        rw [storage_update_level_strategy_id]
        exact beq_self_eq_true _
      have hmeml : l ∈ (storage_update_level st st.strategy_id
          { plevel with status := LevelStatus.executing }).levels :=
        mem_storage_update_level_of_ne st st.strategy_id _ l
          (List.mem_of_find?_eq_some hfind) hne
      have hred : levelStatus (executor_step
          ⟨st, ⟨st.strategy_id, plevel, MonitorType.STOP_LOSS⟩ :: rest, tr, orr⟩ true)
          l.level_id
          = some ((if linkedEligible l plevel.level_id MonitorType.STOP_LOSS then
              { l with status := LevelStatus.monitoring } else l).status) := by
        simp only [executor_step]
        rw [if_pos hcond, if_true]
        show (findLevel _ l.level_id).map (fun lv => lv.status) = _
        dsimp only
        rw [findLevel_storage_update_other _ st.strategy_id
            { plevel with status := LevelStatus.completed } l.level_id hne,
          findLevel_trigger_linked,
          findLevel_storage_update_other st st.strategy_id
            { plevel with status := LevelStatus.executing } l.level_id hne,
          hfind, Option.map_some', Option.map_some']
      by_cases hev : l.trigger_level_event = none ∨
          l.trigger_level_event = some MonitorType.STOP_LOSS.value
      · have helig : linkedEligible l plevel.level_id MonitorType.STOP_LOSS :=
          ⟨htt, hlink, hev, by rcases hstat with h | h <;> rw [h] <;> decide⟩
        refine ⟨?_, fun _ => ?_, fun hnc => absurd ⟨rfl, Or.inr rfl, hev⟩ hnc⟩
        · rw [hred, if_pos helig]
          exact iff_of_true rfl ⟨rfl, Or.inr rfl, hev⟩
        · simp only [executor_step]
          rw [if_pos hcond, if_true]
          show _ ∈ rest ++ _
          refine List.mem_append_right _ ?_
          refine List.mem_filterMap.mpr ⟨l, hmeml, ?_⟩
          rw [if_pos helig, storage_update_level_strategy_id]
      · have helig : ¬ linkedEligible l plevel.level_id MonitorType.STOP_LOSS := by
          rintro ⟨-, -, hev', -⟩
          exact hev hev'
        have hs2 : levelStatus (executor_step
            ⟨st, ⟨st.strategy_id, plevel, MonitorType.STOP_LOSS⟩ :: rest, tr, orr⟩ true)
            l.level_id = some l.status := by
          rw [hred, if_neg helig]
        refine ⟨iff_of_false ?_ ?_, ?_, fun _ => hs2⟩
        · rw [hs2]
          exact hnm
        · rintro ⟨-, -, hev'⟩
          exact hev hev'
        · rintro ⟨-, -, hev'⟩
          exact absurd hev' hev

/-- Witness for `c4_linked_level_triggering`: a strategy with parent
level `l1` (TAKE_PROFIT fires successfully) and linked level `l2`
(`level_close`, `trigger_level_id = l1`,
`trigger_level_event = TAKE_PROFIT`, status `waiting`). -/
theorem c4_linked_level_triggering_witness :
    (findLevel
        ⟨"s1", "", .running,
          [⟨"l1", "BTC-27DEC25-100000-C", "buy", "0.1", "conditional", some 50,
            some 80, none, "Market", none, .monitoring, none, none⟩,
           ⟨"l2", "BTC-27DEC25-100000-C", "buy", "0.1", "level_close", none,
            none, none, "Market", none, .waiting, some "l1", some "TAKE_PROFIT"⟩]⟩
        "l2"
      = some ⟨"l2", "BTC-27DEC25-100000-C", "buy", "0.1", "level_close", none,
          none, none, "Market", none, .waiting, some "l1", some "TAKE_PROFIT"⟩) ∧
    ((levelStatus (executor_step
        ⟨⟨"s1", "", .running,
          [⟨"l1", "BTC-27DEC25-100000-C", "buy", "0.1", "conditional", some 50,
            some 80, none, "Market", none, .monitoring, none, none⟩,
           ⟨"l2", "BTC-27DEC25-100000-C", "buy", "0.1", "level_close", none,
            none, none, "Market", none, .waiting, some "l1", some "TAKE_PROFIT"⟩]⟩,
         [⟨"s1",
           ⟨"l1", "BTC-27DEC25-100000-C", "buy", "0.1", "conditional", some 50,
            some 80, none, "Market", none, .monitoring, none, none⟩,
           .TAKE_PROFIT⟩],
         [], []⟩ true) "l2" = some .monitoring ↔
      (true = true ∧
       (MonitorType.TAKE_PROFIT = MonitorType.TAKE_PROFIT ∨
        MonitorType.TAKE_PROFIT = MonitorType.STOP_LOSS) ∧
       ((some "TAKE_PROFIT" : Option String) = none ∨
        (some "TAKE_PROFIT" : Option String) = some MonitorType.TAKE_PROFIT.value))) ∧
     ((true = true ∧
       (MonitorType.TAKE_PROFIT = MonitorType.TAKE_PROFIT ∨
        MonitorType.TAKE_PROFIT = MonitorType.STOP_LOSS) ∧
       ((some "TAKE_PROFIT" : Option String) = none ∨
        (some "TAKE_PROFIT" : Option String) = some MonitorType.TAKE_PROFIT.value)) →
      (⟨"s1",
        ⟨"l2", "BTC-27DEC25-100000-C", "buy", "0.1", "level_close", none,
         none, none, "Market", none, .monitoring, some "l1", some "TAKE_PROFIT"⟩,
        .ENTRY⟩ : ExecutionTask)
        ∈ (executor_step
        ⟨⟨"s1", "", .running,
          [⟨"l1", "BTC-27DEC25-100000-C", "buy", "0.1", "conditional", some 50,
            some 80, none, "Market", none, .monitoring, none, none⟩,
           ⟨"l2", "BTC-27DEC25-100000-C", "buy", "0.1", "level_close", none,
            none, none, "Market", none, .waiting, some "l1", some "TAKE_PROFIT"⟩]⟩,
         [⟨"s1",
           ⟨"l1", "BTC-27DEC25-100000-C", "buy", "0.1", "conditional", some 50,
            some 80, none, "Market", none, .monitoring, none, none⟩,
           .TAKE_PROFIT⟩],
         [], []⟩ true).queue) ∧
     (¬(true = true ∧
       (MonitorType.TAKE_PROFIT = MonitorType.TAKE_PROFIT ∨
        MonitorType.TAKE_PROFIT = MonitorType.STOP_LOSS) ∧
       ((some "TAKE_PROFIT" : Option String) = none ∨
        (some "TAKE_PROFIT" : Option String) = some MonitorType.TAKE_PROFIT.value)) →
      levelStatus (executor_step
        ⟨⟨"s1", "", .running,
          [⟨"l1", "BTC-27DEC25-100000-C", "buy", "0.1", "conditional", some 50,
            some 80, none, "Market", none, .monitoring, none, none⟩,
           ⟨"l2", "BTC-27DEC25-100000-C", "buy", "0.1", "level_close", none,
            none, none, "Market", none, .waiting, some "l1", some "TAKE_PROFIT"⟩]⟩,
         [⟨"s1",
           ⟨"l1", "BTC-27DEC25-100000-C", "buy", "0.1", "conditional", some 50,
            some 80, none, "Market", none, .monitoring, none, none⟩,
           .TAKE_PROFIT⟩],
         [], []⟩ true) "l2" = some .waiting)) :=
  ⟨by decide,
   c4_linked_level_triggering
     ⟨⟨"s1", "", .running,
       [⟨"l1", "BTC-27DEC25-100000-C", "buy", "0.1", "conditional", some 50,
         some 80, none, "Market", none, .monitoring, none, none⟩,
        ⟨"l2", "BTC-27DEC25-100000-C", "buy", "0.1", "level_close", none,
         none, none, "Market", none, .waiting, some "l1", some "TAKE_PROFIT"⟩]⟩,
      [⟨"s1",
        ⟨"l1", "BTC-27DEC25-100000-C", "buy", "0.1", "conditional", some 50,
         some 80, none, "Market", none, .monitoring, none, none⟩,
        .TAKE_PROFIT⟩],
      [], []⟩
     ⟨"s1",
      ⟨"l1", "BTC-27DEC25-100000-C", "buy", "0.1", "conditional", some 50,
       some 80, none, "Market", none, .monitoring, none, none⟩,
      .TAKE_PROFIT⟩
     []
     ⟨"l2", "BTC-27DEC25-100000-C", "buy", "0.1", "level_close", none,
      none, none, "Market", none, .waiting, some "l1", some "TAKE_PROFIT"⟩
     true rfl rfl (by decide) (by decide) rfl rfl (Or.inr rfl)⟩

/-! ## Helper lemmas: monitor storage, strings -/

theorem find?_map_pred {α : Type} (xs : List α) (f : α → α) (p : α → Bool)
    (hf : ∀ x, p (f x) = p x) :
    (xs.map f).find? p = (xs.find? p).map f := by
  rw [List.find?_map]
  have hpred : (p ∘ f) = p := by
    funext x
    exact hf x
  rw [hpred]

theorem get_task_trigger_effect (st : ServiceState) (task_id : String)
    (t : MonitorTask) (hget : get_task st task_id = some t) :
    get_task (trigger_storage_effect st task_id) task_id
      = some { t with status := "triggered" } := by
  unfold get_task at hget ⊢
  unfold trigger_storage_effect
  show (st.tasks.map _).find? _ = _
  rw [find?_map_pred st.tasks _ _ ?hp, hget, Option.map_some',
    if_pos (List.find?_some hget)]
  case hp =>
    intro x
    by_cases hx : x.task_id == task_id
    · rw [if_pos hx]
    · rw [if_neg hx]

theorem get_task_expire_effect (st : ServiceState) (task_id : String)
    (t : MonitorTask) (hget : get_task st task_id = some t) :
    get_task (expire_storage_effect st task_id) task_id
      = some { t with status := "expired" } := by
  unfold get_task at hget ⊢
  unfold expire_storage_effect
  show (st.tasks.map _).find? _ = _
  rw [find?_map_pred st.tasks _ _ ?hp, hget, Option.map_some',
    if_pos (List.find?_some hget)]
  case hp =>
    intro x
    by_cases hx : x.task_id == task_id
    · rw [if_pos hx]
    · rw [if_neg hx]

theorem get_task_remove_none (st : ServiceState) (task_id : String) :
    get_task (remove_monitor_task st task_id).1 task_id = none := by
  unfold get_task remove_monitor_task
  show (st.tasks.filter _).find? _ = none
  rw [List.find?_eq_none]
  intro x hx
  have hne := List.of_mem_filter hx
  simpa using hne

theorem lowerStr_append (a b : String) : lowerStr (a ++ b) = lowerStr a ++ lowerStr b := by
  obtain ⟨la⟩ := a
  obtain ⟨lb⟩ := b
  show String.mk ((la ++ lb).map Char.toLower)
    = String.mk (la.map Char.toLower) ++ String.mk (lb.map Char.toLower)
  rw [List.map_append]
  rfl

/-! ## Claim C5 -/

/-- Claim C5: the venue side for ENTRY equals the level's side, and for
TAKE_PROFIT and STOP_LOSS it is the opposite side (buy becomes sell,
sell becomes buy). -/
theorem c5_side_mapping (side : String) (h : side = "buy" ∨ side = "sell") :
    trade_side side .ENTRY = side ∧
    trade_side side .TAKE_PROFIT = opposite_side side ∧
    trade_side side .STOP_LOSS = opposite_side side := by
  rcases h with h | h <;> subst h <;> exact ⟨by decide, by decide, by decide⟩

/-- Witness for `c5_side_mapping` at side `buy`. -/
theorem c5_side_mapping_witness :
    ("buy" = "buy" ∨ "buy" = "sell") ∧
    (trade_side "buy" .ENTRY = "buy" ∧
     trade_side "buy" .TAKE_PROFIT = opposite_side "buy" ∧
     trade_side "buy" .STOP_LOSS = opposite_side "buy") :=
  ⟨Or.inl rfl, c5_side_mapping "buy" (Or.inl rfl)⟩

/-! ## Claim C6 -/

/-- Claim C6, counterexample: delivering the same webhook twice in
immediate succession to a level in `monitoring` enqueues two execution
tasks, and processing the queue produces two execution attempts and two
venue orders — not one.  `handle_webhook` only rejects levels whose
status is completed, failed or cancelled. -/
theorem c6_counterexample :
    (handle_webhook (handle_webhook
      ⟨⟨"s1", "", .running,
        [⟨"l1", "BTC-27DEC25-100000-C", "buy", "0.1", "conditional", some 50,
          some 80, none, "Market", none, .monitoring, none, none⟩]⟩,
       [], [], []⟩ "s1" "l1" .ENTRY) "s1" "l1" .ENTRY).queue.length = 2 ∧
    (executor_step (executor_step (handle_webhook (handle_webhook
      ⟨⟨"s1", "", .running,
        [⟨"l1", "BTC-27DEC25-100000-C", "buy", "0.1", "conditional", some 50,
          some 80, none, "Market", none, .monitoring, none, none⟩]⟩,
       [], [], []⟩ "s1" "l1" .ENTRY) "s1" "l1" .ENTRY) true) true).trades.length = 2 ∧
    (executor_step (executor_step (handle_webhook (handle_webhook
      ⟨⟨"s1", "", .running,
        [⟨"l1", "BTC-27DEC25-100000-C", "buy", "0.1", "conditional", some 50,
          some 80, none, "Market", none, .monitoring, none, none⟩]⟩,
       [], [], []⟩ "s1" "l1" .ENTRY) "s1" "l1" .ENTRY) true) true).orders
      = [("BTC-27DEC25-100000-C-USDT", "buy"), ("BTC-27DEC25-100000-C-USDT", "buy")] := by
  refine ⟨by decide, by decide, by decide⟩

/-- Claim C6, amended: a second delivery of the same webhook is ignored
(state unchanged, nothing enqueued) exactly when the level it addresses
is already terminal — completed, failed or cancelled — which is the case
after the first delivery's execution task has been processed and left the
level terminal.  A duplicate delivered while the level is still
non-terminal is enqueued again. -/
theorem c6_duplicate_webhook_amended (e : EngineState) (sid lid : String)
    (m : MonitorType) (level : StrategyLevel)
    (hfind : findLevel e.strategy lid = some level)
    (hterm : level.status = .completed ∨ level.status = .failed ∨
      level.status = .cancelled) :
    handle_webhook e sid lid m = e := by
  unfold handle_webhook
  by_cases h1 : sid ≠ e.strategy.strategy_id
  · rw [if_pos h1]
  · rw [if_neg h1, hfind]
    show (if e.strategy.status ≠ StrategyStatus.running then e
      else if level.status = .completed ∨ level.status = .failed ∨
          level.status = .cancelled then e
      else { e with queue := e.queue ++ [⟨sid, level, m⟩] }) = e
    by_cases h2 : e.strategy.status ≠ StrategyStatus.running
    · rw [if_pos h2]
    · rw [if_neg h2, if_pos hterm]

/-- Witness for `c6_duplicate_webhook_amended`: a webhook for a level
already `completed` leaves the engine state unchanged. -/
theorem c6_duplicate_webhook_amended_witness :
    (findLevel
        ⟨"s1", "", .running,
          [⟨"l1", "BTC-27DEC25-100000-C", "buy", "0.1", "conditional", some 50,
            some 80, none, "Market", none, .completed, none, none⟩]⟩ "l1"
      = some ⟨"l1", "BTC-27DEC25-100000-C", "buy", "0.1", "conditional", some 50,
          some 80, none, "Market", none, .completed, none, none⟩) ∧
    handle_webhook
      ⟨⟨"s1", "", .running,
        [⟨"l1", "BTC-27DEC25-100000-C", "buy", "0.1", "conditional", some 50,
          some 80, none, "Market", none, .completed, none, none⟩]⟩,
       [], [], []⟩ "s1" "l1" .TAKE_PROFIT
      = ⟨⟨"s1", "", .running,
        [⟨"l1", "BTC-27DEC25-100000-C", "buy", "0.1", "conditional", some 50,
          some 80, none, "Market", none, .completed, none, none⟩]⟩,
       [], [], []⟩ :=
  ⟨by decide,
   c6_duplicate_webhook_amended _ "s1" "l1" .TAKE_PROFIT
     ⟨"l1", "BTC-27DEC25-100000-C", "buy", "0.1", "conditional", some 50,
      some 80, none, "Market", none, .completed, none, none⟩
     (by decide) (Or.inl rfl)⟩

/-! ## Claim C8 -/

/-- Claim C8, counterexample: the first `DELETE /api/monitor/{task_id}`
succeeds, but repeating it returns HTTP 404 — not success — because the
endpoint checks `storage.get_task` and raises `HTTPException(404)` for a
missing task. -/
theorem c8_counterexample :
    (delete_monitor_task ⟨[mkTask "t1" "S" 100], ["t1"]⟩ "t1").2 = ApiResult.ok ∧
    (delete_monitor_task
        (delete_monitor_task ⟨[mkTask "t1" "S" 100], ["t1"]⟩ "t1").1 "t1").2
      = ApiResult.err 404 ∧
    ApiResult.err 404 ≠ ApiResult.ok := by
  refine ⟨by decide, by decide, by decide⟩

/-- Claim C8, amended: deleting the same task id a second time (or a
nonexistent id) leaves the store and the active-task map unchanged — the
service-level `remove_monitor_task` is idempotent — but the HTTP endpoint
answers 404, not success, for the missing task. -/
theorem c8_delete_idempotent_amended (st : ServiceState) (task_id : String) :
    delete_monitor_task (delete_monitor_task st task_id).1 task_id
      = ((delete_monitor_task st task_id).1, .err 404) := by
  cases hget : get_task st task_id with
  | none =>
    have h1 : delete_monitor_task st task_id = (st, .err 404) := by
      unfold delete_monitor_task
      rw [hget]
    rw [h1]
    exact h1
  | some t =>
    have h1 : delete_monitor_task st task_id
        = ((remove_monitor_task st task_id).1, .ok) := by
      unfold delete_monitor_task
      rw [hget]
      rfl
    rw [h1]
    show delete_monitor_task (remove_monitor_task st task_id).1 task_id = _
    unfold delete_monitor_task
    rw [get_task_remove_none]

/-! ## Claim C9 -/

/-- Claim C9, counterexample: `sync_level_tasks` lowercases the whole
task id (`monitor_client.py` line 61), so the ENTRY monitor id for
strategy `sid` and level `lid` is `"strategy-sid-lid-entry"`, not
`"strategy-sid-lid-ENTRY"` as the claim states. -/
theorem c9_counterexample :
    sync_task_id "sid" "lid" .ENTRY = "strategy-sid-lid-entry" ∧
    sync_task_id "sid" "lid" .ENTRY ≠ "strategy-sid-lid-ENTRY" := by
  refine ⟨by decide, by decide⟩

/-- Claim C9, amended: the monitor task id is deterministic and equals
the lowercased `strategy-{sid}-{lid}-ENTRY`, i.e.
`"strategy-" ++ lower sid ++ "-" ++ lower lid ++ "-" ++ "entry"`; the
single create payload of an ENTRY definition carries that id and exactly
the definition's target price, so a re-created ENTRY monitor after pause
and resume has the same id and target. -/
theorem c9_task_id_amended (sid lid sym webhook : String) (target : ℚ) :
    sync_level_tasks sid lid sym [(MonitorType.ENTRY, target)] webhook
      = [⟨"strategy-" ++ lowerStr sid ++ "-" ++ lowerStr lid ++ "-" ++ "entry",
          sid, lid, "ENTRY", sym, target, webhook⟩] := by
  unfold sync_level_tasks sync_task_id
  simp only [List.map_cons, List.map_nil]
  rw [lowerStr_append, lowerStr_append, lowerStr_append, lowerStr_append,
    lowerStr_append,
    (by decide : lowerStr "strategy-" = "strategy-"),
    (by decide : lowerStr "-" = "-"),
    (by decide : lowerStr MonitorType.ENTRY.value = "entry")]
  rfl

/-! ## Claim C10 -/

/-- Claim C10: triggering or expiring a task updates its stored status in
place and never deletes it, and the create endpoint's duplicate check
consults storage, so `POST /api/monitor/create` with the task id of an
already-triggered or already-expired task is rejected with HTTP 400 and
changes nothing. -/
theorem c10_reserved_task_id (st : ServiceState) (task_id : String)
    (t newTask : MonitorTask) (hget : get_task st task_id = some t)
    (hid : newTask.task_id = task_id) :
    (get_task (trigger_storage_effect st task_id) task_id
        = some { t with status := "triggered" } ∧
     create_monitor_task (trigger_storage_effect st task_id) newTask
        = (trigger_storage_effect st task_id, .err 400)) ∧
    (get_task (expire_storage_effect st task_id) task_id
        = some { t with status := "expired" } ∧
     create_monitor_task (expire_storage_effect st task_id) newTask
        = (expire_storage_effect st task_id, .err 400)) := by
  refine ⟨⟨get_task_trigger_effect st task_id t hget, ?_⟩,
    get_task_expire_effect st task_id t hget, ?_⟩
  · unfold create_monitor_task
    rw [hid, get_task_trigger_effect st task_id t hget]
  · unfold create_monitor_task
    rw [hid, get_task_expire_effect st task_id t hget]

/-- Witness for `c10_reserved_task_id`: a stored task `t1` that has
triggered or expired still blocks creation of a new task with id `t1`. -/
theorem c10_reserved_task_id_witness :
    (get_task ⟨[mkTask "t1" "S" 100], ["t1"]⟩ "t1" = some (mkTask "t1" "S" 100)) ∧
    ((mkTask "t1" "S" 50).task_id = "t1") ∧
    ((get_task (trigger_storage_effect ⟨[mkTask "t1" "S" 100], ["t1"]⟩ "t1") "t1"
        = some { mkTask "t1" "S" 100 with status := "triggered" } ∧
      create_monitor_task (trigger_storage_effect ⟨[mkTask "t1" "S" 100], ["t1"]⟩ "t1")
          (mkTask "t1" "S" 50)
        = (trigger_storage_effect ⟨[mkTask "t1" "S" 100], ["t1"]⟩ "t1", .err 400)) ∧
     (get_task (expire_storage_effect ⟨[mkTask "t1" "S" 100], ["t1"]⟩ "t1") "t1"
        = some { mkTask "t1" "S" 100 with status := "expired" } ∧
      create_monitor_task (expire_storage_effect ⟨[mkTask "t1" "S" 100], ["t1"]⟩ "t1")
          (mkTask "t1" "S" 50)
        = (expire_storage_effect ⟨[mkTask "t1" "S" 100], ["t1"]⟩ "t1", .err 400))) :=
  ⟨by decide, rfl,
   c10_reserved_task_id ⟨[mkTask "t1" "S" 100], ["t1"]⟩ "t1"
     (mkTask "t1" "S" 100) (mkTask "t1" "S" 50) (by decide) rfl⟩

end Bybitoption
